import Mathlib

/-!
Verification of the resumable batch-enrichment pipeline of the
election-insights repository (`src/extract_features.py`,
`src/modules/openai_request.py`, `src/download_tweets.py`,
`src/modules/twitter_request.py`).

The pandas tables are embedded as Lean lists of rows; a missing value
(NaN) in a cell is `Option.none`.  The external classifier call and the
JSON parser are opaque effects of the environment and are passed in as
function parameters; everything the repository itself computes is
translated directly from the source.
-/

/-- A JSON scalar as produced by `json.loads` on the classifier response:
either a string label or a number (JSON numbers are exact decimals,
embedded as rationals). -/
inductive JVal
  | str (s : String)
  | num (q : ℚ)
deriving DecidableEq, Repr

/-- A parsed JSON object (`json.loads` result): ordered key/value pairs. -/
abbrev Obj := List (String × JVal)

/-- One row of the input table `data/tweets.csv` as used by
`FeatureExtraction.extract_features` (only the columns the loop touches).
`none` is a NaN cell. -/
structure InputRow where
  texto : Option String
  candidato : Option String
deriving DecidableEq, Repr

/-- One row of the output table `data/tweets_gpt_features.csv`:
the tweet text, the candidate label, and the classification fields
(`none` when the classifier call failed and the appended frame was empty). -/
structure OutRow where
  texto : Option String
  candidato : Option String
  features : Option Obj
deriving DecidableEq, Repr

/-- Auxiliary for `dedupeBy`: keeps the first row for each key not yet
seen, exactly like pandas drop_duplicates with keep set to first
(pandas treats NaN cells as equal to each other there, which matches
plain equality on `Option`). -/
def dedupeByAux {α κ : Type} [DecidableEq κ] (key : α → κ) (seen : List κ) : List α → List α
  | [] => []
  | x :: xs =>
    if key x ∈ seen then dedupeByAux key seen xs
    else x :: dedupeByAux key (key x :: seen) xs

/-- Embedding of drop_duplicates on the tw_texto column, keeping the first row. -/
def dedupeBy {α κ : Type} [DecidableEq κ] (key : α → κ) (l : List α) : List α :=
  dedupeByAux key [] l

/-- Embedding of `Series.isin`: membership of one cell value in a column of values
(pandas hash-based membership, under which equal missing values match). -/
def isinTexto (v : Option String) (vs : List (Option String)) : Bool :=
  decide (v ∈ vs)

/-- Embedding of `df.dropna()` as a row predicate: every (modelled) column is non-NaN. -/
def rowNoNa (r : InputRow) : Bool :=
  r.texto.isSome && r.candidato.isSome

/-- Lines 31-44 of `src/extract_features.py`: dedupe the input by
`tw_texto`, dedupe the saved results by `tw_texto`, keep the input rows
whose `tw_texto` is not `isin` the saved `tw_texto` column, then `dropna`. -/
def workSet (input : List InputRow) (res : List OutRow) : List InputRow :=
  ((dedupeBy InputRow.texto input).filter fun r =>
      !(isinTexto r.texto ((dedupeBy OutRow.texto res).map OutRow.texto))).filter rowNoNa

/-- Lines 52-68 of `src/extract_features.py`: the row appended for one
processed record.  The classifier pipeline
`OpenAIRequest(tweet).preprocess_text().extract_features` with the tw_ key prefix
is abstracted as `clf` (it returns the classification fields, or an empty
frame `none` on a handled failure); the code then overwrites `tw_texto`
with the original tweet and sets `tw_candidate`, so the appended row
always carries the text and candidate label of the record itself. -/
def mkRow (clf : Option String → Option Obj) (r : InputRow) : OutRow :=
  { texto := r.texto, candidato := r.candidato, features := clf r.texto }

/-- Lines 47-74 of `src/extract_features.py`: the processing loop.
Returns the final accumulated table together with the trace of tables
persisted by `df_results.to_csv(...)` — one persisted state per iteration,
written after the row of that iteration has been appended. -/
def loopSaves (clf : Option String → Option Obj) :
    List InputRow → List OutRow → List OutRow × List (List OutRow)
  | [], res => (res, [])
  | r :: rest, res =>
    let res2 := res ++ [mkRow clf r]
    let out := loopSaves clf rest res2
    (out.1, res2 :: out.2)

/-- Python-level errors surfaced by the embedded fragments. -/
inductive PyErr
  | keyError
  | typeError
  | valueError
deriving DecidableEq, Repr

/-- Embedding of `FeatureExtraction.extract_features` (src/extract_features.py, lines
30-74).  `saved` is the state of `data/tweets_gpt_features.csv`:
`some res` when the file exists (with its columns), `none` when
`pd.read_csv` raises `FileNotFoundError`.  In the latter branch the code
sets `df_results = pd.DataFrame()`, a frame with no columns at all, and
line 43 then evaluates the tw_texto column of df_results, which raises `KeyError`
(the except clause only catches `FileNotFoundError`), aborting the run. -/
def extract_features (clf : Option String → Option Obj) (input : List InputRow)
    (saved : Option (List OutRow)) : Except PyErr (List OutRow × List (List OutRow)) :=
  match saved with
  | none => .error .keyError
  | some res => .ok (loopSaves clf (workSet input res) (dedupeBy OutRow.texto res))

/-- Written from the SPEC wording of the diff step, for comparison with
the `workSet` of the code: the sub-sequence of the text-deduplicated input
records whose text value is absent from the output table. -/
def specWorkSet (input : List InputRow) (res : List OutRow) : List InputRow :=
  (dedupeBy InputRow.texto input).filter fun r =>
    !(decide (r.texto ∈ res.map OutRow.texto))

section DedupeLemmas

variable {α κ : Type} [DecidableEq κ] {key : α → κ}

theorem mem_of_mem_dedupeByAux {seen : List κ} {l : List α} {a : α}
    (h : a ∈ dedupeByAux key seen l) : a ∈ l ∧ key a ∉ seen := by
  induction l generalizing seen with
  | nil => simp [dedupeByAux] at h
  | cons x xs ih =>
    by_cases hx : key x ∈ seen
    · simp [dedupeByAux, hx] at h
      rcases ih h with ⟨h1, h2⟩
      exact ⟨List.mem_cons_of_mem _ h1, h2⟩
    · simp [dedupeByAux, hx] at h
      rcases h with rfl | h
      · exact ⟨List.mem_cons_self _ _, hx⟩
      · rcases ih h with ⟨h1, h2⟩
        simp at h2
        exact ⟨List.mem_cons_of_mem _ h1, h2.2⟩

theorem dedupeByAux_pairwise (seen : List κ) (l : List α) :
    (dedupeByAux key seen l).Pairwise (fun a b => key a ≠ key b) := by
  induction l generalizing seen with
  | nil => simp [dedupeByAux]
  | cons x xs ih =>
    by_cases hx : key x ∈ seen
    · simpa [dedupeByAux, hx] using ih seen
    · simp only [dedupeByAux, hx, if_false]
      refine List.Pairwise.cons ?_ (ih _)
      intro b hb
      have := (mem_of_mem_dedupeByAux hb).2
      simp at this
      exact fun he => this.1 he.symm

theorem dedupeBy_pairwise (l : List α) :
    (dedupeBy key l).Pairwise (fun a b => key a ≠ key b) :=
  dedupeByAux_pairwise [] l

theorem mem_of_mem_dedupeBy {l : List α} {a : α} (h : a ∈ dedupeBy key l) : a ∈ l :=
  (mem_of_mem_dedupeByAux h).1

theorem key_mem_dedupeByAux {seen : List κ} {l : List α} {b : κ}
    (hb : b ∈ l.map key) (hs : b ∉ seen) : b ∈ (dedupeByAux key seen l).map key := by
  induction l generalizing seen with
  | nil => simp at hb
  | cons x xs ih =>
    simp only [List.map_cons, List.mem_cons] at hb
    by_cases hx : key x ∈ seen
    · rcases hb with rfl | hb
      · exact absurd hx (by simpa using hs)
      · simpa [dedupeByAux, hx] using ih hb hs
    · rcases hb with rfl | hb
      · simp [dedupeByAux, hx]
      · by_cases hbx : b = key x
        · subst hbx; simp [dedupeByAux, hx]
        · simp only [dedupeByAux, hx, if_false, List.map_cons, List.mem_cons]
          refine Or.inr (ih hb ?_)
          simp [hs, hbx]

/-- The key set of a column is unchanged by `drop_duplicates` on that key. -/
theorem key_mem_dedupeBy_iff {l : List α} {b : κ} :
    b ∈ (dedupeBy key l).map key ↔ b ∈ l.map key := by
  constructor
  · intro h
    rcases List.mem_map.1 h with ⟨a, ha, rfl⟩
    exact List.mem_map_of_mem key (mem_of_mem_dedupeBy ha)
  · intro h
    exact key_mem_dedupeByAux h (by simp)

end DedupeLemmas

section LoopLemmas

theorem loopSaves_fst (clf : Option String → Option Obj)
    (work : List InputRow) (res : List OutRow) :
    (loopSaves clf work res).1 = res ++ work.map (mkRow clf) := by
  induction work generalizing res with
  | nil => simp [loopSaves]
  | cons r rest ih =>
    simp [loopSaves, ih]

theorem loopSaves_snd_length (clf : Option String → Option Obj)
    (work : List InputRow) (res : List OutRow) :
    (loopSaves clf work res).2.length = work.length := by
  induction work generalizing res with
  | nil => simp [loopSaves]
  | cons r rest ih => simp [loopSaves, ih]

theorem loopSaves_snd_get (clf : Option String → Option Obj)
    (work : List InputRow) (res : List OutRow) (k : Nat) (hk : k < work.length) :
    (loopSaves clf work res).2[k]? =
      some (res ++ (work.take (k + 1)).map (mkRow clf)) := by
  induction work generalizing res k with
  | nil => simp at hk
  | cons r rest ih =>
    cases k with
    | zero => simp [loopSaves]
    | succ k =>
      have hk' : k < rest.length := by simpa using hk
      simp [loopSaves, ih _ _ hk']

end LoopLemmas

/-- C1 counterexample: the claim says the work set is exactly the
sub-sequence of text-deduplicated input records whose text is absent from
the output table, but the loop additionally applies `dropna()`: an input
row with a NaN text cell is absent from the output yet dropped from the
work set. -/
theorem c1_workset_counterexample :
    workSet [⟨none, some "a"⟩] [⟨some "z", some "c", none⟩] ≠
      specWorkSet [⟨none, some "a"⟩] [⟨some "z", some "c", none⟩] := by
  decide

/-- C1 (amended): the work set is the diff of the spec (text-deduplicated input
records whose text is absent from the output table) further restricted to
rows with no missing fields (`dropna`); and a record whose text already
appears in the output table is never in the work set, hence never
reprocessed on restart. -/
theorem c1_workset_diff (input : List InputRow) (res : List OutRow) :
    workSet input res = (specWorkSet input res).filter rowNoNa ∧
    ∀ r ∈ dedupeBy InputRow.texto input,
      isinTexto r.texto (res.map OutRow.texto) = true → r ∉ workSet input res := by
  constructor
  · unfold workSet specWorkSet
    have hpq : ∀ r ∈ dedupeBy InputRow.texto input,
        (!(isinTexto r.texto ((dedupeBy OutRow.texto res).map OutRow.texto))) =
        (!(decide (r.texto ∈ res.map OutRow.texto))) := by
      intro r _
      rw [isinTexto, decide_eq_decide.2 key_mem_dedupeBy_iff]
    rw [List.filter_congr hpq]
  · intro r _ hin hmem
    unfold workSet at hmem
    have h1 := (List.mem_filter.1 hmem).1
    have h2 := (List.mem_filter.1 h1).2
    rw [isinTexto, decide_eq_decide.2 key_mem_dedupeBy_iff] at h2
    rw [isinTexto] at hin
    rw [hin] at h2
    simp at h2

/-- C1 witness: at a concrete input table (one NaN-text row, one fresh row,
one row whose text is already in the output) the amended diff equation
holds and the already-saved record is excluded from the work set. -/
theorem c1_workset_diff_witness :
    workSet [⟨some "z", some "a"⟩, ⟨some "t", some "b"⟩] [⟨some "z", some "c", none⟩]
        = (specWorkSet [⟨some "z", some "a"⟩, ⟨some "t", some "b"⟩]
            [⟨some "z", some "c", none⟩]).filter rowNoNa ∧
    (⟨some "z", some "a"⟩ : InputRow) ∉
      workSet [⟨some "z", some "a"⟩, ⟨some "t", some "b"⟩] [⟨some "z", some "c", none⟩] :=
  ⟨(c1_workset_diff [⟨some "z", some "a"⟩, ⟨some "t", some "b"⟩]
      [⟨some "z", some "c", none⟩]).1,
   (c1_workset_diff [⟨some "z", some "a"⟩, ⟨some "t", some "b"⟩]
      [⟨some "z", some "c", none⟩]).2 ⟨some "z", some "a"⟩ (by decide) (by decide)⟩

/-- C2: whenever a run over an existing output table succeeds, the loop
persists the table once per processed record (the save trace has one
entry per work-set record), and the table persisted after the k-th record
is the prior (deduplicated) saved table with the rows of all first k+1
processed records appended — so an interruption loses at most the record
in flight. -/
theorem c2_per_record_checkpoint (clf : Option String → Option Obj)
    (input : List InputRow) (res : List OutRow)
    (fin : List OutRow) (saves : List (List OutRow))
    (hrun : extract_features clf input (some res) = .ok (fin, saves))
    (k : Nat) (hk : k < (workSet input res).length) :
    saves.length = (workSet input res).length ∧
    saves[k]? = some (dedupeBy OutRow.texto res ++
      ((workSet input res).take (k + 1)).map (mkRow clf)) := by
  have h : loopSaves clf (workSet input res) (dedupeBy OutRow.texto res) = (fin, saves) := by
    simpa [extract_features] using hrun
  have hs : saves = (loopSaves clf (workSet input res) (dedupeBy OutRow.texto res)).2 := by
    rw [h]
  constructor
  · rw [hs, loopSaves_snd_length]
  · rw [hs, loopSaves_snd_get _ _ _ _ hk]

/-- C2 witness: a concrete two-record run checkpoints after the first
record with exactly the first appended row. -/
theorem c2_per_record_checkpoint_witness :
    ([[⟨some "t", some "c", none⟩], [⟨some "t", some "c", none⟩, ⟨some "u", some "d", none⟩]]
        : List (List OutRow)).length
      = (workSet [⟨some "t", some "c"⟩, ⟨some "u", some "d"⟩] []).length ∧
    ([[⟨some "t", some "c", none⟩], [⟨some "t", some "c", none⟩, ⟨some "u", some "d", none⟩]]
        : List (List OutRow))[0]?
      = some (dedupeBy OutRow.texto [] ++
          ((workSet [⟨some "t", some "c"⟩, ⟨some "u", some "d"⟩] []).take 1).map
            (mkRow (fun _ => none))) :=
  c2_per_record_checkpoint (fun _ => none) [⟨some "t", some "c"⟩, ⟨some "u", some "d"⟩] []
    [⟨some "t", some "c", none⟩, ⟨some "u", some "d", none⟩]
    [[⟨some "t", some "c", none⟩], [⟨some "t", some "c", none⟩, ⟨some "u", some "d", none⟩]]
    rfl 0 (by decide)

/-- C5: after a completed pass over any input table with an existing
output table, the final accumulated output table has pairwise-distinct
text values. -/
theorem c5_output_text_unique (clf : Option String → Option Obj)
    (input : List InputRow) (res : List OutRow)
    (fin : List OutRow) (saves : List (List OutRow))
    (hrun : extract_features clf input (some res) = .ok (fin, saves)) :
    fin.Pairwise (fun a b => a.texto ≠ b.texto) := by
  have h : loopSaves clf (workSet input res) (dedupeBy OutRow.texto res) = (fin, saves) := by
    simpa [extract_features] using hrun
  have hfin : fin = dedupeBy OutRow.texto res ++ (workSet input res).map (mkRow clf) := by
    have h1 := congrArg Prod.fst h
    rw [loopSaves_fst] at h1
    exact h1.symm
  rw [hfin, List.pairwise_append]
  refine ⟨dedupeBy_pairwise res, ?_, ?_⟩
  · rw [List.pairwise_map]
    have hw : (workSet input res).Pairwise
        (fun a b => InputRow.texto a ≠ InputRow.texto b) :=
      ((dedupeBy_pairwise input).filter _).filter _
    exact hw
  · intro a ha b hb
    rcases List.mem_map.1 hb with ⟨r, hr, rfl⟩
    have hfalse : isinTexto r.texto ((dedupeBy OutRow.texto res).map OutRow.texto) = false := by
      unfold workSet at hr
      have hr1 := (List.mem_filter.1 hr).1
      simpa using (List.mem_filter.1 hr1).2
    intro he
    have he2 : a.texto = r.texto := he
    have hma : a.texto ∈ (dedupeBy OutRow.texto res).map OutRow.texto :=
      List.mem_map_of_mem _ ha
    rw [he2] at hma
    rw [isinTexto] at hfalse
    simp [hma] at hfalse

/-- C5 witness: a concrete run (input containing a duplicate text and a
text already saved) yields an output table with distinct texts. -/
theorem c5_output_text_unique_witness :
    ([⟨some "z", some "c", none⟩, ⟨some "t", some "c", none⟩] : List OutRow).Pairwise
      (fun a b => a.texto ≠ b.texto) :=
  c5_output_text_unique (fun _ => none)
    [⟨some "t", some "c"⟩, ⟨some "t", some "c"⟩, ⟨some "z", some "a"⟩]
    [⟨some "z", some "c", none⟩]
    [⟨some "z", some "c", none⟩, ⟨some "t", some "c", none⟩]
    [[⟨some "z", some "c", none⟩, ⟨some "t", some "c", none⟩]] rfl

/-- C6: the claim says a missing output file yields an empty output table
and a work set equal to the whole deduplicated non-null input, the run
proceeding.  The code instead aborts: the `FileNotFoundError` branch sets
`df_results = pd.DataFrame()` (a frame with no columns), and line 43 then
evaluates the tw_texto column of df_results, raising an uncaught `KeyError` before
any record is processed.  This theorem evaluates the embedded run at the
failing input. -/
theorem c6_fresh_start_keyerror :
    extract_features (fun _ => none) [⟨some "hola", some "a"⟩] none =
      .error .keyError := rfl

/-- C7: a record of the work set whose classification fails still gets a
placeholder row (its text and candidate label, empty features) in the
final output table, and in any subsequent run over any input table that
uses this output table, no work-set record carries that text — the failed
record is never retried across runs. -/
theorem c7_failed_record_never_retried (clf : Option String → Option Obj)
    (input : List InputRow) (res : List OutRow) (r : InputRow)
    (fin : List OutRow) (saves : List (List OutRow))
    (hr : r ∈ workSet input res) (hf : clf r.texto = none)
    (hrun : extract_features clf input (some res) = .ok (fin, saves)) :
    (⟨r.texto, r.candidato, none⟩ : OutRow) ∈ fin ∧
    ∀ (input2 : List InputRow), ∀ r2 ∈ workSet input2 fin, r2.texto ≠ r.texto := by
  have h : loopSaves clf (workSet input res) (dedupeBy OutRow.texto res) = (fin, saves) := by
    simpa [extract_features] using hrun
  have hfin : fin = dedupeBy OutRow.texto res ++ (workSet input res).map (mkRow clf) := by
    have h1 := congrArg Prod.fst h
    rw [loopSaves_fst] at h1
    exact h1.symm
  constructor
  · rw [hfin]
    refine List.mem_append_right _ ?_
    have hrow : mkRow clf r = ⟨r.texto, r.candidato, none⟩ := by
      simp [mkRow, hf]
    rw [← hrow]
    exact List.mem_map_of_mem _ hr
  · intro input2 r2 hr2 he
    have hnotin : isinTexto r2.texto ((dedupeBy OutRow.texto fin).map OutRow.texto) = false := by
      unfold workSet at hr2
      have h1 := (List.mem_filter.1 hr2).1
      simpa using (List.mem_filter.1 h1).2
    have hrin : r.texto ∈ fin.map OutRow.texto := by
      rw [hfin]
      refine List.mem_map.2 ⟨mkRow clf r, ?_, rfl⟩
      exact List.mem_append_right _ (List.mem_map_of_mem _ hr)
    have hded : r.texto ∈ (dedupeBy OutRow.texto fin).map OutRow.texto :=
      key_mem_dedupeBy_iff.2 hrin
    rw [he, isinTexto] at hnotin
    simp [hded] at hnotin

/-- C7 witness: a concrete failing record r = ("t","c") is appended as a
placeholder row and is excluded from every later work set keyed on its
text. -/
theorem c7_failed_record_never_retried_witness :
    (⟨some "t", some "c", none⟩ : OutRow) ∈ ([⟨some "t", some "c", none⟩] : List OutRow) ∧
    ∀ (input2 : List InputRow),
      ∀ r2 ∈ workSet input2 [⟨some "t", some "c", none⟩],
        r2.texto ≠ (⟨some "t", some "c"⟩ : InputRow).texto :=
  c7_failed_record_never_retried (fun _ => none) [⟨some "t", some "c"⟩] []
    ⟨some "t", some "c"⟩ [⟨some "t", some "c", none⟩] [[⟨some "t", some "c", none⟩]]
    (by decide) rfl rfl

/-- The apostrophe character, used to build the triple-quote delimiter of
the tweet inside the prompt. -/
def apos : Char := Char.ofNat 39

/-- Python triple quote delimiter around the tweet in the prompt. -/
def tripleQuote : String := String.mk [apos, apos, apos]

/-- The classification prompt of `ExtractFeatures.extract_features`
(src/modules/openai_request.py, lines 101-122): the f-string with the
requested key list interpolating the caller-supplied key prefix and the
(sanitized) tweet text between triple quotes. -/
def buildPrompt (pre t : String) : String :=
  "\n                El siguiente es un tweet que menciona a un candidato presidencial dentro de la contienda electoral 2023 en Guatemala. \n                Por favor, clasifícalo de acuerdo a las siguientes categorías:\n\n                Valencia (sentimiento general): [positivo, negativo, neutro]\n                Emoción (emoción principal expresada): [felicidad, tristeza, enojo, miedo, sorpresa, disgusto]\n                Postura (actitud hacia el tema): [aprobación, desaprobación, esperanza, desilusión, indiferencia, confianza, desconfianza]\n                Tono (forma de expresarse): [agresivo, pasivo, asertivo, escéptico, irónico, humorístico, informativo, serio, inspirador]\n\n                Además, evalúalo utilizando una escala continua con rango de 0 a 1 en las siguientes dimensiones:\n\n                Amabilidad (nivel de cortesía): [0.0 - 1.0]\n                Legibilidad (facilidad de lectura): [0.0 - 1.0]\n                Controversialidad (potencial para generar desacuerdo): [0.0 - 1.0]\n                Informatividad (cantidad de información relevante y fundamentada): [0.0 - 1.0]\n\n                Formatea tu respuesta como un diccionario de Python con las siguientes llaves:\n\n                ["
  ++ pre ++ "valencia, " ++ pre ++ "emocion, " ++ pre ++ "postura, " ++ pre ++ "tono, "
  ++ pre ++ "amabilidad, " ++ pre ++ "legibilidad, " ++ pre ++ "controversialidad, "
  ++ pre ++ "informatividad]\n\n                Tweet: "
  ++ tripleQuote ++ t ++ tripleQuote ++ "\n                "

/-- The try-block of `ExtractFeatures.extract_features` for one record
(src/modules/openai_request.py, lines 124-133).  `call` is the remote
`make_request` (ok = response text, error = any exception raised,
including a rate-limit error surviving all backoff retries); `parse` is
`json.loads` (`none` = raises).  Any exception inside the try body is
caught, logged, and an empty frame — `none` — is used for this record. -/
def classifyOne (call : String → Except String String) (parse : String → Option Obj)
    (pre t : String) : Option Obj :=
  match call (buildPrompt pre t) with
  | .error _ => none
  | .ok s => parse s

/-- The collector loop of `ExtractFeatures.extract_features`
(src/modules/openai_request.py, lines 99-135): one collected entry per
record, in order. -/
def collectResponses (call : String → Except String String) (parse : String → Option Obj)
    (pre : String) : List String → List (Option Obj)
  | [] => []
  | t :: ts => classifyOne call parse pre t :: collectResponses call parse pre ts

theorem collectResponses_length (call : String → Except String String)
    (parse : String → Option Obj) (pre : String) (ts : List String) :
    (collectResponses call parse pre ts).length = ts.length := by
  induction ts with
  | nil => rfl
  | cons t ts ih => simp [collectResponses, ih]

/-- The four numeric dimension keys requested by the prompt. -/
def dimKeys (pre : String) : List String :=
  [pre ++ "amabilidad", pre ++ "legibilidad", pre ++ "controversialidad",
   pre ++ "informatividad"]

/-- The eight keys the prompt instructs the model to emit, in prompt order. -/
def requestedKeys (pre : String) : List String :=
  [pre ++ "valencia", pre ++ "emocion", pre ++ "postura", pre ++ "tono"] ++ dimKeys pre

/-- A numeric dimension value as demanded by the prompt: a number in the
closed interval [0, 1]. -/
def dimValOK : JVal → Bool
  | .num q => decide (0 ≤ q ∧ q ≤ 1)
  | .str _ => false

/-- Schema property claimed of an emitted row: exactly the requested keys,
and every dimension field numeric within [0, 1]. -/
def schemaOKb (pre : String) (o : Obj) : Bool :=
  (decide (o.map Prod.fst = requestedKeys pre)) &&
  o.all fun kv => !(decide (kv.1 ∈ dimKeys pre)) || dimValOK kv.2

/-- Outcome of one invocation of the undecorated remote call: a response,
or one of the exception classes distinguished by the backoff decorators
(`openai.error.RateLimitError` / `tweepy.errors.TooManyRequests` as the
rate-limit class, `requests.exceptions.ReadTimeout`, anything else). -/
inductive CallResult
  | ok (s : String)
  | rateLimit
  | readTimeout
  | other (e : String)
deriving DecidableEq, Repr

/-- The exception classes listed in
`backoff.on_exception(backoff.expo, (RateLimitError, ReadTimeout), max_tries=5)`
(src/modules/openai_request.py, lines 68-72) and
`backoff.on_exception(backoff.expo, (TooManyRequests, ReadTimeout), max_tries=5)`
(src/modules/twitter_request.py, lines 37-41). -/
def retryable : CallResult → Bool
  | .rateLimit => true
  | .readTimeout => true
  | _ => false

/-- Semantics of `backoff.on_exception(..., max_tries=n)` around a call
whose i-th invocation yields `f i`: `backoffRun f i m` runs with `m`
tries remaining, starting at invocation `i`.  A retryable exception is
retried (after an exponential-backoff sleep, irrelevant to the value)
unless this was the last allowed try; any other exception, or exhaustion,
re-raises the most recent exception.  The `m = 0` case is unreachable
from `make_request` (which starts at `max_tries = 5`). -/
def backoffRun (f : Nat → CallResult) : Nat → Nat → Except CallResult String
  | i, 0 => .error (f i)
  | i, m + 1 =>
    match f i with
    | .ok s => .ok s
    | e => if m = 0 then .error e
           else if retryable e then backoffRun f (i + 1) m else .error e

/-- Embedding of `ExtractFeatures.make_request` / `GetTweets.make_request`: the
decorated remote call with `max_tries = 5`. -/
def make_request (f : Nat → CallResult) : Except CallResult String :=
  backoffRun f 0 5

theorem backoffRun_succ (f : Nat → CallResult) (i m : Nat) :
    backoffRun f i (m + 1) =
      match f i with
      | .ok s => .ok s
      | e => if m = 0 then .error e
             else if retryable e then backoffRun f (i + 1) m else .error e := rfl

theorem backoffRun_retry_step (f : Nat → CallResult) (i m : Nat)
    (hm : m ≠ 0) (hf : retryable (f i) = true) :
    backoffRun f i (m + 1) = backoffRun f (i + 1) m := by
  rw [backoffRun_succ]
  cases h : f i with
  | ok s => rw [h] at hf; simp [retryable] at hf
  | rateLimit => simp [hm, retryable]
  | readTimeout => simp [hm, retryable]
  | other e => rw [h] at hf; simp [retryable] at hf

theorem backoffRun_other (f : Nat → CallResult) (i m : Nat) (e : String)
    (h : f i = .other e) : backoffRun f i (m + 1) = .error (.other e) := by
  rw [backoffRun_succ, h]
  cases m <;> simp [retryable]

/-- Characters matched inside the URL body by the pattern
`http[s]?://(?:[a-zA-Z]|[0-9]|[$-_@.&+]|[!*\\(\\),]|(?:%[0-9a-fA-F][0-9a-fA-F]))+`
(src/modules/openai_request.py line 33 and src/modules/openai.py line 15).
`[$-_@.&+]` is the character range 0x24-0x5F (which already covers the
digits, uppercase letters, `@.&+*\(),%` and the hex letters), so the
union of all the alternatives is: `!`, the range 0x24-0x5F, and the
lowercase letters. -/
def isUrlChar (c : Char) : Bool :=
  c.toNat = 0x21 || (0x24 ≤ c.toNat && c.toNat ≤ 0x5F) ||
    (0x61 ≤ c.toNat && c.toNat ≤ 0x7A)

/-- Length of the maximal run of URL-body characters (the greedy `+`,
with nothing after it in the pattern). -/
def takeUrlRun : List Char → Nat
  | [] => 0
  | c :: cs => if isUrlChar c then 1 + takeUrlRun cs else 0

/-- Matches the scheme part `http[s]?://` at the head of the list
(greedy optional `s`, then `://`) and returns the remainder. -/
def stripScheme : List Char → Option (List Char)
  | 'h' :: 't' :: 't' :: 'p' :: 's' :: ':' :: '/' :: '/' :: rest => some rest
  | 'h' :: 't' :: 't' :: 'p' :: ':' :: '/' :: '/' :: rest => some rest
  | _ => none

/-- The url_pattern substitution by the empty string, the scan: at each position a match
requires the scheme followed by at least one URL-body character (the
`+`); a match is removed and scanning resumes after it (non-overlapping
matches); otherwise the character is kept.  The `Nat` argument only
bounds the number of scan steps so the recursion is structural; every
step consumes at least one character (a scheme match consumes at least
seven), so with the input length as the bound the `0` case with a
non-empty list is never reached. -/
def removeUrlsGo : Nat → List Char → List Char
  | _, [] => []
  | 0, cs => cs
  | n + 1, c :: cs =>
    match stripScheme (c :: cs) with
    | some rest =>
      if takeUrlRun rest = 0 then c :: removeUrlsGo n cs
      else removeUrlsGo n (rest.drop (takeUrlRun rest))
    | none => c :: removeUrlsGo n cs

/-- The url_pattern substitution by the empty string on the character list. -/
def removeUrls (cs : List Char) : List Char :=
  removeUrlsGo cs.length cs

/-- Membership of a character in the emoji ranges of `emoji_pattern`
(src/modules/openai_request.py lines 37-47). -/
def isEmojiChar (c : Char) : Bool :=
  let n := c.toNat
  (0x1F600 ≤ n && n ≤ 0x1F64F) || (0x1F300 ≤ n && n ≤ 0x1F5FF) ||
  (0x1F680 ≤ n && n ≤ 0x1F6FF) || (0x1F1E0 ≤ n && n ≤ 0x1F1FF) ||
  (0x2702 ≤ n && n ≤ 0x27B0) || (0x24C2 ≤ n && n ≤ 0x1F251)

/-- The emoji_pattern substitution by the empty string: removing every maximal run of emoji
characters is removing every emoji character. -/
def removeEmojis (cs : List Char) : List Char :=
  cs.filter fun c => !(isEmojiChar c)

/-- The replace call turning every newline character into a space. -/
def replaceNewlines (cs : List Char) : List Char :=
  cs.map fun c => if c = '\n' then ' ' else c

/-- Embedding of `remove_emojis_and_links` (src/modules/openai_request.py lines 25-52;
the copy in src/modules/openai.py lines 13-35 is identical): remove URLs,
then emoji characters, then replace newlines by spaces. -/
def remove_emojis_and_links (s : String) : String :=
  String.mk (replaceNewlines (removeEmojis (removeUrls s.data)))

/-- A dynamically typed Python value handed to the sanitizer: a `str`, or
any non-text value (e.g. the float NaN read from a CSV cell). -/
inductive PyVal
  | str (s : String)
  | nonText (tag : String)

/-- The sanitizer as called with an arbitrary Python value.  There is no
`isinstance` guard in `remove_emojis_and_links`: on a non-`str` argument
the first url_pattern substitution raises
`TypeError: expected string or bytes-like object`. -/
def sanitizePy : PyVal → Except PyErr String
  | .str s => .ok (remove_emojis_and_links s)
  | .nonText _ => .error .typeError

/-- A dynamically typed bound handed to `DownloadTweets.generate_dates`:
a naive `datetime` (embedded as seconds on the timeline, on which datetime
comparison and `timedelta` arithmetic are faithfully mirrored), or any
non-datetime value. -/
inductive PyDT
  | dt (t : Int)
  | notDT (tag : String)
deriving DecidableEq, Repr

/-- The `while date < end_date` loop of `DownloadTweets.generate_dates`
(src/download_tweets.py lines 55-66) with `delta = timedelta(days=1)`,
i.e. 86400 seconds; each emitted pair is one one-day window. -/
def genDates (d e : Int) : List (Int × Int) :=
  if h : d < e then (d, d + 86400) :: genDates (d + 86400) e else []
termination_by (e - d).toNat
decreasing_by
  omega

/-- Embedding of `DownloadTweets.generate_dates` (src/download_tweets.py lines 39-66):
first the isinstance check (TypeError), then the inverted-range check
(ValueError), then the window loop. -/
def generate_dates (s e : PyDT) : Except PyErr (List (Int × Int)) :=
  match s, e with
  | .dt ts, .dt te =>
    if ts > te then .error .valueError
    else .ok (genDates ts te)
  | _, _ => .error .typeError

/-- Embedding of `DownloadTweets.download_tweets` (src/download_tweets.py lines
104-138), reduced to the external search requests it issues: it calls
`generate_dates` first, then issues one `get_batch` request per
(candidate, window) pair — so an error from `generate_dates` aborts the
run before any external request. -/
def download_tweets (cands : List String) (s e : PyDT) :
    Except PyErr (List (String × Int × Int)) := do
  let dates ← generate_dates s e
  pure (cands.flatMap fun c => dates.map fun w => (c, w.1, w.2))

theorem genDates_pos {d e : Int} (h : d < e) :
    genDates d e = (d, d + 86400) :: genDates (d + 86400) e := by
  rw [genDates]
  simp [h]

theorem genDates_neg {d e : Int} (h : ¬d < e) : genDates d e = [] := by
  rw [genDates]
  simp [h]

/-- C3: a record whose remote call raises, or whose response text fails
to parse, yields an empty per-record entry while every record before and
after it is still processed — the collected output decomposes around the
failed record and keeps one entry per input record, so the batch is not
aborted. -/
theorem c3_malformed_response_handling (call : String → Except String String)
    (parse : String → Option Obj) (pre : String) (ts1 : List String) (t : String)
    (ts2 : List String)
    (hfail : (∃ err, call (buildPrompt pre t) = .error err) ∨
             (∃ s, call (buildPrompt pre t) = .ok s ∧ parse s = none)) :
    collectResponses call parse pre (ts1 ++ t :: ts2) =
      collectResponses call parse pre ts1 ++ none :: collectResponses call parse pre ts2 ∧
    (collectResponses call parse pre (ts1 ++ t :: ts2)).length =
      ts1.length + 1 + ts2.length := by
  have hnone : classifyOne call parse pre t = none := by
    rcases hfail with ⟨err, herr⟩ | ⟨s, hs, hp⟩
    · simp [classifyOne, herr]
    · simp [classifyOne, hs, hp]
  constructor
  · induction ts1 with
    | nil => simp [collectResponses, hnone]
    | cons a as ih => simp [collectResponses, ih]
  · rw [collectResponses_length]
    simp [List.length_append]
    omega

/-- C3 witness: a concrete batch where the response text of the middle record
does not parse — its entry is empty, the neighbours are still processed,
and the batch keeps one entry per record. -/
theorem c3_malformed_response_handling_witness :
    collectResponses (fun _ => Except.ok "not json") (fun _ => (none : Option Obj)) "tw_"
        (["a"] ++ "b" :: ["c"]) =
      collectResponses (fun _ => Except.ok "not json") (fun _ => (none : Option Obj)) "tw_"
        ["a"] ++ none :: collectResponses (fun _ => Except.ok "not json")
        (fun _ => (none : Option Obj)) "tw_" ["c"] ∧
    (collectResponses (fun _ => Except.ok "not json") (fun _ => (none : Option Obj)) "tw_"
        (["a"] ++ "b" :: ["c"])).length = 3 :=
  c3_malformed_response_handling (fun _ => Except.ok "not json")
    (fun _ => (none : Option Obj)) "tw_" ["a"] "b" ["c"]
    (Or.inr ⟨"not json", rfl, rfl⟩)

/-- C4: for the backoff-decorated remote calls (classifier and search,
both `max_tries = 5`): four rate-limit failures followed by a success on
the fifth attempt return the success; five retryable failures propagate
the last error; and a non-retryable exception, reached after any number
of retryable ones, propagates immediately without further attempts. -/
theorem c4_bounded_retry (f : Nat → CallResult) (s : String) :
    ((∀ i, i < 4 → f i = .rateLimit) → f 4 = .ok s → make_request f = .ok s) ∧
    ((∀ i, i < 5 → retryable (f i) = true) → make_request f = .error (f 4)) ∧
    (∀ k, k < 5 → (∀ i, i < k → retryable (f i) = true) → ∀ e, f k = .other e →
      make_request f = .error (.other e)) := by
  refine ⟨?_, ?_, ?_⟩
  · intro h4 h5
    show backoffRun f 0 (4 + 1) = .ok s
    rw [backoffRun_retry_step f 0 4 (by omega) (by rw [h4 0 (by omega)]; rfl)]
    show backoffRun f 1 (3 + 1) = .ok s
    rw [backoffRun_retry_step f 1 3 (by omega) (by rw [h4 1 (by omega)]; rfl)]
    show backoffRun f 2 (2 + 1) = .ok s
    rw [backoffRun_retry_step f 2 2 (by omega) (by rw [h4 2 (by omega)]; rfl)]
    show backoffRun f 3 (1 + 1) = .ok s
    rw [backoffRun_retry_step f 3 1 (by omega) (by rw [h4 3 (by omega)]; rfl)]
    show backoffRun f 4 (0 + 1) = .ok s
    rw [backoffRun_succ, h5]
  · intro h
    show backoffRun f 0 (4 + 1) = .error (f 4)
    rw [backoffRun_retry_step f 0 4 (by omega) (h 0 (by omega))]
    show backoffRun f 1 (3 + 1) = .error (f 4)
    rw [backoffRun_retry_step f 1 3 (by omega) (h 1 (by omega))]
    show backoffRun f 2 (2 + 1) = .error (f 4)
    rw [backoffRun_retry_step f 2 2 (by omega) (h 2 (by omega))]
    show backoffRun f 3 (1 + 1) = .error (f 4)
    rw [backoffRun_retry_step f 3 1 (by omega) (h 3 (by omega))]
    show backoffRun f 4 (0 + 1) = .error (f 4)
    have h4 := h 4 (by omega)
    rw [backoffRun_succ]
    cases hf : f 4 with
    | ok s => rw [hf] at h4; simp [retryable] at h4
    | rateLimit => simp
    | readTimeout => simp
    | other e => rw [hf] at h4; simp [retryable] at h4
  · intro k hk hr e he
    interval_cases k
    · show backoffRun f 0 (4 + 1) = .error (.other e)
      exact backoffRun_other f 0 4 e he
    · show backoffRun f 0 (4 + 1) = .error (.other e)
      rw [backoffRun_retry_step f 0 4 (by omega) (hr 0 (by omega))]
      exact backoffRun_other f 1 3 e he
    · show backoffRun f 0 (4 + 1) = .error (.other e)
      rw [backoffRun_retry_step f 0 4 (by omega) (hr 0 (by omega))]
      show backoffRun f 1 (3 + 1) = .error (.other e)
      rw [backoffRun_retry_step f 1 3 (by omega) (hr 1 (by omega))]
      exact backoffRun_other f 2 2 e he
    · show backoffRun f 0 (4 + 1) = .error (.other e)
      rw [backoffRun_retry_step f 0 4 (by omega) (hr 0 (by omega))]
      show backoffRun f 1 (3 + 1) = .error (.other e)
      rw [backoffRun_retry_step f 1 3 (by omega) (hr 1 (by omega))]
      show backoffRun f 2 (2 + 1) = .error (.other e)
      rw [backoffRun_retry_step f 2 2 (by omega) (hr 2 (by omega))]
      exact backoffRun_other f 3 1 e he
    · show backoffRun f 0 (4 + 1) = .error (.other e)
      rw [backoffRun_retry_step f 0 4 (by omega) (hr 0 (by omega))]
      show backoffRun f 1 (3 + 1) = .error (.other e)
      rw [backoffRun_retry_step f 1 3 (by omega) (hr 1 (by omega))]
      show backoffRun f 2 (2 + 1) = .error (.other e)
      rw [backoffRun_retry_step f 2 2 (by omega) (hr 2 (by omega))]
      show backoffRun f 3 (1 + 1) = .error (.other e)
      rw [backoffRun_retry_step f 3 1 (by omega) (hr 3 (by omega))]
      exact backoffRun_other f 4 0 e he

/-- C4 witness: concrete call behaviours exercising the three clauses —
success on the fifth attempt after four rate limits, five rate limits,
and an immediate non-retryable exception. -/
theorem c4_bounded_retry_witness :
    make_request (fun i => if i < 4 then CallResult.rateLimit else .ok "done") = .ok "done" ∧
    make_request (fun _ => CallResult.rateLimit) = .error .rateLimit ∧
    make_request (fun _ => CallResult.other "AuthenticationError") =
      .error (.other "AuthenticationError") :=
  ⟨(c4_bounded_retry (fun i => if i < 4 then CallResult.rateLimit else .ok "done") "done").1
      (by decide) (by decide),
   (c4_bounded_retry (fun _ => CallResult.rateLimit) "x").2.1 (by decide),
   (c4_bounded_retry (fun _ => CallResult.other "AuthenticationError") "x").2.2 0 (by decide)
      (by intro i hi; omega) "AuthenticationError" rfl⟩

/-- C8 counterexample: the code never validates the parsed response
against the requested schema — a response text whose JSON object is
`\x7b"foo": 7\x7d` parses fine and is emitted as the row for its record,
with neither the requested keys nor a [0,1] dimension value. -/
theorem c8_schema_counterexample :
    some [("foo", JVal.num 7)] ∈
      collectResponses (fun _ => Except.ok "resp") (fun _ => some [("foo", JVal.num 7)])
        "tw_" ["hola"] ∧
    schemaOKb "tw_" [("foo", JVal.num 7)] = false := by
  constructor
  · simp [collectResponses, classifyOne]
  · rfl

/-- C8 (amended): the prompt requests exactly the prefixed keys valencia,
emocion, postura, tono, amabilidad, legibilidad, controversialidad,
informatividad, but the code performs no validation of the parsed
response: an emitted row is exactly the parsed object.  Schema stability
therefore holds conditionally: if every object the parser produces has
exactly the requested keys with numeric dimension values in [0,1], then
every emitted row does. -/
theorem c8_schema_conditional (call : String → Except String String)
    (parse : String → Option Obj) (pre : String) (ts : List String)
    (hparse : ∀ s o, parse s = some o → schemaOKb pre o = true) :
    requestedKeys "tw_" =
      ["tw_valencia", "tw_emocion", "tw_postura", "tw_tono", "tw_amabilidad",
       "tw_legibilidad", "tw_controversialidad", "tw_informatividad"] ∧
    ∀ o, some o ∈ collectResponses call parse pre ts → schemaOKb pre o = true := by
  refine ⟨rfl, ?_⟩
  intro o ho
  induction ts with
  | nil => simp [collectResponses] at ho
  | cons t ts ih =>
    simp only [collectResponses, List.mem_cons] at ho
    rcases ho with ho | ho
    · unfold classifyOne at ho
      cases hc : call (buildPrompt pre t) with
      | error err => rw [hc] at ho; simp at ho
      | ok s => rw [hc] at ho; exact hparse s o ho.symm
    · exact ih ho

/-- C8 witness: with a parser that only produces a well-formed object
(all requested keys, dimensions 0 or 1), every emitted row satisfies the
schema. -/
theorem c8_schema_conditional_witness :
    requestedKeys "tw_" =
      ["tw_valencia", "tw_emocion", "tw_postura", "tw_tono", "tw_amabilidad",
       "tw_legibilidad", "tw_controversialidad", "tw_informatividad"] ∧
    ∀ o, some o ∈ collectResponses (fun _ => Except.ok "r")
        (fun _ => some [("tw_valencia", JVal.str "neutro"), ("tw_emocion", JVal.str "felicidad"),
          ("tw_postura", JVal.str "esperanza"), ("tw_tono", JVal.str "serio"),
          ("tw_amabilidad", JVal.num 1), ("tw_legibilidad", JVal.num 0),
          ("tw_controversialidad", JVal.num 1), ("tw_informatividad", JVal.num 0)])
        "tw_" ["hola"] →
      schemaOKb "tw_" o = true :=
  c8_schema_conditional (fun _ => Except.ok "r")
    (fun _ => some [("tw_valencia", JVal.str "neutro"), ("tw_emocion", JVal.str "felicidad"),
      ("tw_postura", JVal.str "esperanza"), ("tw_tono", JVal.str "serio"),
      ("tw_amabilidad", JVal.num 1), ("tw_legibilidad", JVal.num 0),
      ("tw_controversialidad", JVal.num 1), ("tw_informatividad", JVal.num 0)])
    "tw_" ["hola"] (by intro s o h; cases h; decide)

/-- C9 counterexample: on a non-text input the sanitizer does not return
the empty string — there is no type guard in `remove_emojis_and_links`,
so the url_pattern substitution raises `TypeError` (e.g. for the float NaN
a CSV reader yields for an empty cell). -/
theorem c9_nontext_counterexample :
    sanitizePy (.nonText "float nan") ≠ .ok "" := by
  intro h
  exact Except.noConfusion h

/-- C9 (amended): the sanitizer removes the URL substring and the emoji
and replaces the newline by a space on the concrete example, and on every
non-text input it raises `TypeError` instead of returning the empty
string. -/
theorem c9_sanitizer :
    remove_emojis_and_links "check http://x.co now 😀\n" = "check  now  " ∧
    ∀ tag, sanitizePy (.nonText tag) = .error .typeError :=
  ⟨by decide, fun _ => rfl⟩

/-- C10: for datetime bounds, a two-day range yields exactly the two
consecutive one-day windows, an empty range yields no windows, an
inverted range raises `ValueError`; a non-datetime bound raises
`TypeError`, and through `download_tweets` such an error aborts the run
before any external search request is produced. -/
theorem c10_window_generation (t e : Int) (tag : String) (cands : List String) :
    generate_dates (.dt t) (.dt (t + 172800)) =
      .ok [(t, t + 86400), (t + 86400, t + 172800)] ∧
    generate_dates (.dt t) (.dt t) = .ok [] ∧
    (t > e → generate_dates (.dt t) (.dt e) = .error .valueError) ∧
    download_tweets cands (.notDT tag) (.dt e) = .error .typeError ∧
    download_tweets cands (.dt t) (.notDT tag) = .error .typeError := by
  refine ⟨?_, ?_, ?_, rfl, rfl⟩
  · have e1 : t + 86400 + 86400 = t + 172800 := by omega
    simp only [generate_dates]
    rw [if_neg (by omega)]
    rw [genDates_pos (by omega), genDates_pos (by omega), e1,
      genDates_neg (by omega)]
  · simp only [generate_dates]
    rw [if_neg (by omega), genDates_neg (by omega)]
  · intro h
    simp only [generate_dates]
    rw [if_pos h]

/-- C10 witness: concrete bounds — two one-day windows from a two-day
range, zero windows from an empty range, a ValueError from an inverted
range, and TypeErrors from non-datetime bounds. -/
theorem c10_window_generation_witness :
    generate_dates (.dt 0) (.dt 172800) = .ok [(0, 86400), (86400, 172800)] ∧
    generate_dates (.dt 0) (.dt 0) = .ok [] ∧
    generate_dates (.dt 1) (.dt 0) = .error .valueError ∧
    download_tweets ["sandra torres"] (.notDT "str") (.dt 0) = .error .typeError ∧
    download_tweets ["sandra torres"] (.dt 1) (.notDT "str") = .error .typeError :=
  ⟨(c10_window_generation 0 0 "str" ["sandra torres"]).1,
   (c10_window_generation 0 0 "str" ["sandra torres"]).2.1,
   (c10_window_generation 1 0 "str" ["sandra torres"]).2.2.1 (by decide),
   (c10_window_generation 1 0 "str" ["sandra torres"]).2.2.2.1,
   (c10_window_generation 1 0 "str" ["sandra torres"]).2.2.2.2⟩

/-- C9 witness: the amended sanitizer contract at the concrete example
and at one concrete non-text value. -/
theorem c9_sanitizer_witness :
    remove_emojis_and_links "check http://x.co now 😀\n" = "check  now  " ∧
    sanitizePy (.nonText "float nan") = .error .typeError :=
  ⟨c9_sanitizer.1, c9_sanitizer.2 "float nan"⟩
